import Mathlib

/-!
Verification of the streaming recording session coordinator of
`scribe-ai/server.ts` against its specification.

The embedding mirrors the source file: the in-memory `activeRecordings`
map, the durable `recording` rows accessed through prisma, the four
socket event handlers (`audio-chunk`, `complete-recording`,
`pause-recording`, `resume-recording`), the completion pipeline
`processRecordingWithGemini`, and the periodic stale-entry cleanup.

Modelling conventions:
* JS `Map` objects become association lists with `mapGet`/`mapSet`/`mapDelete`.
* `Date.now()` timestamps are `Int` milliseconds passed explicitly.
* Audio blobs are opaque `Nat` identifiers; combining chunks keeps the list.
* The Gemini adapter calls and the two fallible prisma `update` calls are
  oracles in a `PipelineEnv`; a rejected promise is an `Except.error`
  carrying the JS `Error.message` string.
* `processRecordingWithGemini` is split at its first `await`
  (`prisma.recording.findUnique`): `pipelinePrefix` is the code that runs
  synchronously inside the `complete-recording` handler (lines 97-115 of
  the source), `pipelineRest` is the rest of the async body including the
  `catch` block.
-/

namespace ScribeAI

/-- `Map.get` on the JS map, modelled on an association list. -/
def mapGet {α : Type} : List (String × α) → String → Option α
  | [], _ => none
  | (k, v) :: rest, key => if k = key then some v else mapGet rest key

/-- `Map.set`: replaces the value at an existing key in place, otherwise
appends a new entry (JS maps keep insertion order). -/
def mapSet {α : Type} : List (String × α) → String → α → List (String × α)
  | [], key, v => [(key, v)]
  | (k, w) :: rest, key, v =>
      if k = key then (k, v) :: rest else (k, w) :: mapSet rest key v

/-- `Map.delete`: removes the entry for a key. -/
def mapDelete {α : Type} : List (String × α) → String → List (String × α)
  | [], _ => []
  | (k, v) :: rest, key =>
      if k = key then mapDelete rest key else (k, v) :: mapDelete rest key

/-- Durable status enum of the `Recording` row. -/
inductive Status
  | RECORDING
  | PAUSED
  | PROCESSING
  | COMPLETED
  | FAILED
deriving DecidableEq

/-- The fields of the durable `recording` row that the coordinator
reads and writes. -/
structure DbRecord where
  status : Status
  transcript : Option String
  summary : Option String
  duration : Option Int
deriving DecidableEq

/-- One entry of the in-memory `activeRecordings` map (server.ts lines
82-90). -/
structure LiveRecording where
  socketId : String
  startTime : Int
  chunks : List Nat
  isPaused : Bool
deriving DecidableEq

/-- The mutable state the coordinator touches: the in-memory registry and
the durable store. -/
structure ServerState where
  activeRecordings : List (String × LiveRecording)
  db : List (String × DbRecord)
deriving DecidableEq

/-- Destination of an emitted event: `io.emit` broadcasts to every
connected client, `socket.emit` goes to the one owning socket. -/
inductive Target
  | broadcast
  | toSocket (socketId : String)
deriving DecidableEq

/-- Server-to-client events of the wire contract. -/
inductive SEvent
  | transcriptionUpdate (recordingId text : String) (isFinal : Bool)
  | recordingCompleted (recordingId summary transcript : String) (duration : Int)
  | recordingError (recordingId error : String)
  | recordingStatus (recordingId status : String)
  | audioChunkReceived (recordingId : String) (success : Bool)
deriving DecidableEq

/-- An emitted event together with its destination. -/
structure Emit where
  target : Target
  event : SEvent
deriving DecidableEq

/-- Oracles for the external collaborators of the completion pipeline:
the two Gemini adapter calls and the two fallible prisma `update` calls. -/
structure PipelineEnv where
  transcribeAudio : List Nat → Except String String
  generateSummary : String → Except String String
  persistOk : Bool
  persistFailMsg : String
  persistErrOk : Bool

/-- Fixed transcript marker written by the pipeline's catch block
(server.ts line 183). -/
def errorMarkerTranscript : String :=
  "Error: Failed to transcribe audio. Please check server logs."

/-- Summary marker written by the catch block (line 184): the raw
exception message appended to a fixed prefix. -/
def errorMarkerSummary (msg : String) : String :=
  "Processing failed: " ++ msg

/-- The `catch` block of `processRecordingWithGemini` (lines 174-199):
best-effort durable error markers, one broadcast `recording-error`, and
removal of the registry entry. -/
def pipelineCatch (persistErrOk : Bool) (recordingId errMsg : String)
    (st : ServerState) : ServerState × List Emit :=
  let db1 :=
    match mapGet st.db recordingId with
    | some r =>
        if persistErrOk then
          mapSet st.db recordingId
            { r with
                status := Status.COMPLETED
                transcript := some errorMarkerTranscript
                summary := some (errorMarkerSummary errMsg) }
        else st.db
    | none => st.db
  (⟨mapDelete st.activeRecordings recordingId, db1⟩,
   [⟨Target.broadcast, SEvent.recordingError recordingId errMsg⟩])

/-- What the pipeline has captured when it reaches its first `await`. -/
inductive PipelineStage
  | running (chunks : List Nat) (startTime : Int)
  | failing (errMsg : String)
deriving DecidableEq

/-- Synchronous prefix of `processRecordingWithGemini` (lines 97-115):
read the registry entry, combine the chunks, and broadcast the
PROCESSING status. An absent or empty entry throws, which transfers
control to the catch block. No registry entry is removed here. -/
def pipelinePrefix (recordingId : String) (st : ServerState) :
    ServerState × List Emit × PipelineStage :=
  match mapGet st.activeRecordings recordingId with
  | none =>
      (st, [], PipelineStage.failing "No audio chunks available for processing")
  | some recordingData =>
      if recordingData.chunks.isEmpty then
        (st, [], PipelineStage.failing "No audio chunks available for processing")
      else
        (st,
         [⟨Target.broadcast, SEvent.recordingStatus recordingId "PROCESSING"⟩],
         PipelineStage.running recordingData.chunks recordingData.startTime)

/-- Remainder of `processRecordingWithGemini` (lines 118-199): durable
lookup, transcription, summary, durable write, completion event and
registry cleanup, with every exception routed through `pipelineCatch`. -/
def pipelineRest (env : PipelineEnv) (now : Int) (recordingId : String)
    (stage : PipelineStage) (st : ServerState) : ServerState × List Emit :=
  match stage with
  | PipelineStage.failing msg => pipelineCatch env.persistErrOk recordingId msg st
  | PipelineStage.running chunks startTime =>
      match mapGet st.db recordingId with
      | none =>
          pipelineCatch env.persistErrOk recordingId
            "Recording not found in database" st
      | some recording =>
          let duration := (now - startTime).fdiv 1000
          match env.transcribeAudio chunks with
          | Except.error msg => pipelineCatch env.persistErrOk recordingId msg st
          | Except.ok transcript =>
              let updEmit : Emit :=
                ⟨Target.broadcast,
                 SEvent.transcriptionUpdate recordingId transcript true⟩
              match env.generateSummary transcript with
              | Except.error msg =>
                  let res := pipelineCatch env.persistErrOk recordingId msg st
                  (res.1, updEmit :: res.2)
              | Except.ok summary =>
                  if env.persistOk then
                    (⟨mapDelete st.activeRecordings recordingId,
                      mapSet st.db recordingId
                        { recording with
                            transcript := some transcript
                            summary := some summary
                            duration := some duration
                            status := Status.COMPLETED }⟩,
                     [updEmit,
                      ⟨Target.broadcast,
                       SEvent.recordingCompleted recordingId summary transcript
                         duration⟩])
                  else
                    let res :=
                      pipelineCatch env.persistErrOk recordingId
                        env.persistFailMsg st
                    (res.1, updEmit :: res.2)

/-- The whole completion pipeline, run without interleaving. -/
def processRecordingWithGemini (env : PipelineEnv) (now : Int)
    (recordingId : String) (st : ServerState) : ServerState × List Emit :=
  let pre := pipelinePrefix recordingId st
  let post := pipelineRest env now recordingId pre.2.2 pre.1
  (post.1, pre.2.1 ++ post.2)

/-- The `audio-chunk` handler (lines 304-359). `chunkPresent` models
whether `data.chunk` was supplied (a missing field is falsy and throws).
An empty `recordingId` is falsy and also throws; the catch emits a
socket-scoped `recording-error`. Otherwise the entry is created lazily,
the chunk appended, an ack emitted, and a final chunk additionally emits
a socket-scoped PROCESSING status. -/
def handleAudioChunk (socketId : String) (now : Int) (recordingId : String)
    (chunkPresent : Bool) (chunk : Nat) (isFinal : Bool) (st : ServerState) :
    ServerState × List Emit :=
  if recordingId = "" ∨ chunkPresent = false then
    (st,
     [⟨Target.toSocket socketId,
       SEvent.recordingError recordingId "Invalid audio chunk data"⟩])
  else
    let reg0 :=
      match mapGet st.activeRecordings recordingId with
      | none =>
          mapSet st.activeRecordings recordingId
            ⟨socketId, now, [], false⟩
      | some _ => st.activeRecordings
    let reg1 :=
      match mapGet reg0 recordingId with
      | some r => mapSet reg0 recordingId { r with chunks := r.chunks ++ [chunk] }
      | none => reg0
    (⟨reg1, st.db⟩,
     ⟨Target.toSocket socketId, SEvent.audioChunkReceived recordingId true⟩ ::
       (if isFinal then
          [⟨Target.toSocket socketId,
            SEvent.recordingStatus recordingId "PROCESSING"⟩]
        else []))

/-- The `complete-recording` handler (lines 361-410). The returned `Bool`
records whether `processRecordingWithGemini` was invoked (it is called
without `await`, so only its synchronous prefix runs inside the handler). -/
def handleCompleteRecording (socketId recordingId : String) (st : ServerState) :
    ServerState × List Emit × Bool :=
  match mapGet st.activeRecordings recordingId with
  | none =>
      (st,
       [⟨Target.toSocket socketId,
         SEvent.recordingError recordingId
           "Recording session not found. No audio chunks received."⟩],
       false)
  | some recording =>
      if recording.chunks.isEmpty then
        (⟨mapDelete st.activeRecordings recordingId, st.db⟩,
         [⟨Target.toSocket socketId,
           SEvent.recordingError recordingId
             "No audio data received for processing"⟩],
         false)
      else
        (st,
         [⟨Target.toSocket socketId,
           SEvent.recordingStatus recordingId "PROCESSING"⟩],
         true)

/-- The `pause-recording` handler (lines 412-435): sets the in-memory
pause flag if the entry exists, then unconditionally writes status PAUSED
to the durable record; a failing durable write (row absent) is caught and
logged with no event. -/
def handlePauseRecording (socketId recordingId : String) (st : ServerState) :
    ServerState × List Emit :=
  let reg :=
    match mapGet st.activeRecordings recordingId with
    | some r => mapSet st.activeRecordings recordingId { r with isPaused := true }
    | none => st.activeRecordings
  match mapGet st.db recordingId with
  | some r =>
      (⟨reg, mapSet st.db recordingId { r with status := Status.PAUSED }⟩,
       [⟨Target.toSocket socketId,
         SEvent.recordingStatus recordingId "PAUSED"⟩])
  | none => (⟨reg, st.db⟩, [])

/-- The `resume-recording` handler (lines 437-460), symmetric to pause
with status RECORDING. -/
def handleResumeRecording (socketId recordingId : String) (st : ServerState) :
    ServerState × List Emit :=
  let reg :=
    match mapGet st.activeRecordings recordingId with
    | some r => mapSet st.activeRecordings recordingId { r with isPaused := false }
    | none => st.activeRecordings
  match mapGet st.db recordingId with
  | some r =>
      (⟨reg, mapSet st.db recordingId { r with status := Status.RECORDING }⟩,
       [⟨Target.toSocket socketId,
         SEvent.recordingStatus recordingId "RECORDING"⟩])
  | none => (⟨reg, st.db⟩, [])

/-- Staleness threshold of the periodic cleanup: one hour in
milliseconds (line 495). -/
def oneHourMs : Int := 60 * 60 * 1000

/-- The periodic cleanup body (lines 494-501): delete every entry whose
`startTime` is strictly older than one hour before `now`. -/
def cleanupStaleRecordings (now : Int)
    (reg : List (String × LiveRecording)) : List (String × LiveRecording) :=
  reg.filter (fun entry => decide (now - oneHourMs ≤ entry.2.startTime))

/-! ### Association-list lemmas -/

theorem mapGet_mapSet_self {α : Type} (m : List (String × α)) (k : String) (v : α) :
    mapGet (mapSet m k v) k = some v := by
  induction m with
  | nil => simp [mapGet, mapSet]
  | cons p rest ih =>
      obtain ⟨k1, v1⟩ := p
      by_cases h : k1 = k
      · subst h; simp [mapGet, mapSet]
      · simp [mapGet, mapSet, h, ih]

theorem mapGet_mapSet_ne {α : Type} (m : List (String × α)) (k k' : String) (v : α)
    (h : k ≠ k') : mapGet (mapSet m k v) k' = mapGet m k' := by
  induction m with
  | nil => simp [mapGet, mapSet, h]
  | cons p rest ih =>
      obtain ⟨k1, v1⟩ := p
      by_cases h1 : k1 = k
      · subst h1; simp [mapGet, mapSet, h]
      · simp [mapGet, mapSet, h1, ih]

theorem mapGet_mapDelete_self {α : Type} (m : List (String × α)) (k : String) :
    mapGet (mapDelete m k) k = none := by
  induction m with
  | nil => simp [mapGet, mapDelete]
  | cons p rest ih =>
      obtain ⟨k1, v1⟩ := p
      by_cases h : k1 = k
      · subst h; simp [mapDelete, ih]
      · simp [mapGet, mapDelete, h, ih]

theorem mapGet_mapDelete_ne {α : Type} (m : List (String × α)) (k k' : String)
    (h : k ≠ k') : mapGet (mapDelete m k) k' = mapGet m k' := by
  induction m with
  | nil => simp [mapDelete]
  | cons p rest ih =>
      obtain ⟨k1, v1⟩ := p
      by_cases h1 : k1 = k
      · subst h1
        simp [mapGet, mapDelete, ih, h]
      · simp [mapGet, mapDelete, h1, ih]

/-! ### Behaviour of the pipeline prefix and the complete handler -/

/-- The synchronous pipeline prefix never mutates the server state: in
particular it does not remove or drain the registry entry. -/
theorem pipelinePrefix_fst (recordingId : String) (st : ServerState) :
    (pipelinePrefix recordingId st).1 = st := by
  unfold pipelinePrefix
  cases h : mapGet st.activeRecordings recordingId with
  | none => rfl
  | some r => by_cases hc : r.chunks.isEmpty <;> simp [hc]

/-- A `complete-recording` for a buffered, non-empty session leaves the
state unchanged, emits one socket-scoped PROCESSING status, and launches
the pipeline. -/
theorem handleCompleteRecording_launches (socketId recordingId : String)
    (st : ServerState) (r : LiveRecording)
    (h : mapGet st.activeRecordings recordingId = some r) (hc : r.chunks ≠ []) :
    handleCompleteRecording socketId recordingId st =
      (st,
       [⟨Target.toSocket socketId,
         SEvent.recordingStatus recordingId "PROCESSING"⟩],
       true) := by
  unfold handleCompleteRecording
  rw [h]
  simp [hc]

/-! ### C1: duplicate complete-recording -/

/-- Concrete state for C1: session "abc" buffered with one chunk. -/
def stC1 : ServerState :=
  ⟨[("abc", ⟨"s1", 0, [7], false⟩)],
   [("abc", ⟨Status.RECORDING, none, none, none⟩)]⟩

/-- C1 counterexample: with session "abc" holding one buffered chunk, a
first `complete-recording` launches the pipeline; after the pipeline's
synchronous prefix has run (the point at which the claim says the
registry entry is removed/drained), the entry is still present unchanged,
and a second `complete-recording` handled in immediate succession finds
the buffered session and launches the pipeline again — it is not a
no-op, so the pipeline runs twice, refuting the claim. -/
theorem C1_counterexample :
    ((handleCompleteRecording "s1" "abc" stC1).2.2 = true) ∧
    (mapGet (pipelinePrefix "abc"
        (handleCompleteRecording "s1" "abc" stC1).1).1.activeRecordings "abc" =
      some ⟨"s1", 0, [7], false⟩) ∧
    ((handleCompleteRecording "s1" "abc"
        (pipelinePrefix "abc"
          (handleCompleteRecording "s1" "abc" stC1).1).1).2.2 = true) := by
  decide

/-- C1 amended: two `complete-recording` events for the same recordingId
handled in immediate succession (the second arriving after the first
pipeline's synchronous prefix) BOTH find the buffered session and BOTH
launch the completion pipeline: the registry entry is removed only when
the pipeline finishes, not at pipeline start, so the
transcribe/summarize/persist pipeline runs twice, not once. -/
theorem C1_pipeline_runs_twice (socketId recordingId : String)
    (st : ServerState) (r : LiveRecording)
    (h : mapGet st.activeRecordings recordingId = some r) (hc : r.chunks ≠ []) :
    (handleCompleteRecording socketId recordingId st).2.2 = true ∧
    (pipelinePrefix recordingId
        (handleCompleteRecording socketId recordingId st).1).1 = st ∧
    (handleCompleteRecording socketId recordingId
        (pipelinePrefix recordingId
          (handleCompleteRecording socketId recordingId st).1).1).2.2 = true := by
  have h1 := handleCompleteRecording_launches socketId recordingId st r h hc
  refine ⟨by rw [h1], ?_, ?_⟩
  · rw [h1]
    exact pipelinePrefix_fst recordingId st
  · rw [h1]
    rw [pipelinePrefix_fst recordingId st, h1]

/-- C1 witness: the amended theorem applied at the concrete state. -/
theorem C1_pipeline_runs_twice_witness :
    (mapGet stC1.activeRecordings "abc" = some ⟨"s1", 0, [7], false⟩ ∧
      (([7] : List Nat) ≠ [])) ∧
    ((handleCompleteRecording "s1" "abc" stC1).2.2 = true ∧
     (pipelinePrefix "abc" (handleCompleteRecording "s1" "abc" stC1).1).1 = stC1 ∧
     (handleCompleteRecording "s1" "abc"
        (pipelinePrefix "abc"
          (handleCompleteRecording "s1" "abc" stC1).1).1).2.2 = true) :=
  ⟨⟨by decide, by decide⟩,
   C1_pipeline_runs_twice "s1" "abc" stC1 ⟨"s1", 0, [7], false⟩ (by decide)
     (by decide)⟩

/-! ### C2: durable status monotonicity under pause/resume -/

/-- Concrete state for C2: durable record "abc" already COMPLETED. -/
def stC2 : ServerState :=
  ⟨[], [("abc", ⟨Status.COMPLETED, some "T", some "S", some 5⟩)]⟩

/-- C2 counterexample: the durable record of "abc" is COMPLETED, yet a
`pause-recording` event moves it to PAUSED — the durable status does not
stay at COMPLETED, refuting the monotonicity claim. -/
theorem C2_counterexample :
    (mapGet stC2.db "abc").map DbRecord.status = some Status.COMPLETED ∧
    (mapGet (handlePauseRecording "s1" "abc" stC2).1.db "abc").map
        DbRecord.status = some Status.PAUSED ∧
    Status.PAUSED ≠ Status.COMPLETED := by
  decide

/-- C2 amended: whenever the durable record exists, `pause-recording`
unconditionally sets its status to PAUSED and `resume-recording`
unconditionally sets it to RECORDING, regardless of the current status —
in particular a COMPLETED (or FAILED) record is overwritten, so the
handlers do not preserve terminal statuses. -/
theorem C2_pause_resume_overwrite_status (socketId recordingId : String)
    (st : ServerState) (r : DbRecord) (h : mapGet st.db recordingId = some r) :
    mapGet (handlePauseRecording socketId recordingId st).1.db recordingId =
      some { r with status := Status.PAUSED } ∧
    mapGet (handleResumeRecording socketId recordingId st).1.db recordingId =
      some { r with status := Status.RECORDING } := by
  unfold handlePauseRecording handleResumeRecording
  rw [h]
  simp [mapGet_mapSet_self]

/-- C2 witness: the amended theorem applied to a COMPLETED record. -/
theorem C2_pause_resume_overwrite_status_witness :
    (mapGet stC2.db "abc" = some ⟨Status.COMPLETED, some "T", some "S", some 5⟩) ∧
    (mapGet (handlePauseRecording "s1" "abc" stC2).1.db "abc" =
      some ⟨Status.PAUSED, some "T", some "S", some 5⟩ ∧
     mapGet (handleResumeRecording "s1" "abc" stC2).1.db "abc" =
      some ⟨Status.RECORDING, some "T", some "S", some 5⟩) :=
  ⟨by decide,
   C2_pause_resume_overwrite_status "s1" "abc" stC2
     ⟨Status.COMPLETED, some "T", some "S", some 5⟩ (by decide)⟩

/-! ### C7: complete-recording with no buffered audio -/

/-- Concrete state for C7: no live sessions, one durable RECORDING row. -/
def stC7 : ServerState :=
  ⟨[], [("x", ⟨Status.RECORDING, none, none, none⟩)]⟩

/-- C7: a `complete-recording` for a session that is absent from the
registry or has zero buffered chunks does not launch the pipeline, leaves
the durable store untouched (in particular no COMPLETED update), leaves
the registry without the session, and emits exactly one socket-scoped
`recording-error`. -/
theorem C7_empty_complete_no_write (socketId recordingId : String)
    (st : ServerState)
    (h : mapGet st.activeRecordings recordingId = none ∨
         ∃ r, mapGet st.activeRecordings recordingId = some r ∧ r.chunks = []) :
    (handleCompleteRecording socketId recordingId st).2.2 = false ∧
    (handleCompleteRecording socketId recordingId st).1.db = st.db ∧
    mapGet (handleCompleteRecording socketId recordingId st).1.activeRecordings
      recordingId = none ∧
    ∃ msg, (handleCompleteRecording socketId recordingId st).2.1 =
      [⟨Target.toSocket socketId, SEvent.recordingError recordingId msg⟩] := by
  rcases h with h | ⟨r, h, hc⟩
  · unfold handleCompleteRecording
    rw [h]
    exact ⟨rfl, rfl, h, "Recording session not found. No audio chunks received.",
      rfl⟩
  · unfold handleCompleteRecording
    rw [h]
    simp [hc, mapGet_mapDelete_self]

/-- C7 witness: the theorem applied to a state with no live session. -/
theorem C7_empty_complete_no_write_witness :
    (mapGet stC7.activeRecordings "x" = none) ∧
    ((handleCompleteRecording "s1" "x" stC7).2.2 = false ∧
     (handleCompleteRecording "s1" "x" stC7).1.db = stC7.db ∧
     mapGet (handleCompleteRecording "s1" "x" stC7).1.activeRecordings "x" =
       none ∧
     ∃ msg, (handleCompleteRecording "s1" "x" stC7).2.1 =
       [⟨Target.toSocket "s1", SEvent.recordingError "x" msg⟩]) :=
  ⟨by decide,
   C7_empty_complete_no_write "s1" "x" stC7 (Or.inl (by decide))⟩

/-! ### C4: chunk buffering order -/

/-- Driver: deliver a sequence of `audio-chunk` events (chunk id with its
`isFinal` flag) for one session over one socket. -/
def sendChunks (socketId : String) (now : Int) (recordingId : String)
    (chunks : List (Nat × Bool)) (st : ServerState) : ServerState × List Emit :=
  match chunks with
  | [] => (st, [])
  | c :: rest =>
      let r1 := handleAudioChunk socketId now recordingId true c.1 c.2 st
      let r2 := sendChunks socketId now recordingId rest r1.1
      (r2.1, r1.2 ++ r2.2)

/-- Overwriting a key twice keeps only the second value. -/
theorem mapSet_mapSet_self {α : Type} (m : List (String × α)) (k : String)
    (v w : α) : mapSet (mapSet m k v) k w = mapSet m k w := by
  induction m with
  | nil => simp [mapSet]
  | cons p rest ih =>
      obtain ⟨k1, v1⟩ := p
      by_cases h : k1 = k
      · subst h; simp [mapSet]
      · simp [mapSet, h, ih]

/-- A valid chunk for a tracked session appends to its buffer, leaving
the other fields and the durable store unchanged. -/
theorem handleAudioChunk_existing (socketId : String) (now : Int)
    (recordingId : String) (c : Nat) (fin : Bool) (st : ServerState)
    (r : LiveRecording) (hrid : recordingId ≠ "")
    (h : mapGet st.activeRecordings recordingId = some r) :
    (handleAudioChunk socketId now recordingId true c fin st).1 =
      ⟨mapSet st.activeRecordings recordingId
        { r with chunks := r.chunks ++ [c] }, st.db⟩ := by
  unfold handleAudioChunk
  simp [hrid, h]

/-- A valid chunk for an untracked session lazily creates the entry and
buffers the chunk. -/
theorem handleAudioChunk_fresh (socketId : String) (now : Int)
    (recordingId : String) (c : Nat) (fin : Bool) (st : ServerState)
    (hrid : recordingId ≠ "")
    (h : mapGet st.activeRecordings recordingId = none) :
    (handleAudioChunk socketId now recordingId true c fin st).1 =
      ⟨mapSet st.activeRecordings recordingId ⟨socketId, now, [c], false⟩,
       st.db⟩ := by
  unfold handleAudioChunk
  simp [hrid, h, mapGet_mapSet_self, mapSet_mapSet_self]

/-- Delivering a chunk sequence to an already-tracked session appends the
chunk ids in order. -/
theorem sendChunks_existing (socketId : String) (now : Int)
    (recordingId : String) (cs : List (Nat × Bool)) (st : ServerState)
    (r : LiveRecording) (hrid : recordingId ≠ "")
    (h : mapGet st.activeRecordings recordingId = some r) :
    mapGet (sendChunks socketId now recordingId cs st).1.activeRecordings
      recordingId = some { r with chunks := r.chunks ++ cs.map Prod.fst } := by
  induction cs generalizing st r with
  | nil => simpa [sendChunks] using h
  | cons c rest ih =>
      have hstep := handleAudioChunk_existing socketId now recordingId c.1 c.2
        st r hrid h
      have hget : mapGet (handleAudioChunk socketId now recordingId true c.1
          c.2 st).1.activeRecordings recordingId =
          some { r with chunks := r.chunks ++ [c.1] } := by
        rw [hstep]
        exact mapGet_mapSet_self _ _ _
      have := ih (handleAudioChunk socketId now recordingId true c.1 c.2 st).1
        { r with chunks := r.chunks ++ [c.1] } hget
      simpa [sendChunks, List.append_assoc] using this

/-- Delivering a non-empty chunk sequence to an untracked session creates
the entry and buffers exactly the chunk ids in order. -/
theorem sendChunks_fresh (socketId : String) (now : Int)
    (recordingId : String) (cs : List (Nat × Bool)) (st : ServerState)
    (hrid : recordingId ≠ "")
    (h : mapGet st.activeRecordings recordingId = none) (hcs : cs ≠ []) :
    mapGet (sendChunks socketId now recordingId cs st).1.activeRecordings
      recordingId = some ⟨socketId, now, cs.map Prod.fst, false⟩ := by
  cases cs with
  | nil => exact absurd rfl hcs
  | cons c rest =>
      have hstep := handleAudioChunk_fresh socketId now recordingId c.1 c.2 st
        hrid h
      have hget : mapGet (handleAudioChunk socketId now recordingId true c.1
          c.2 st).1.activeRecordings recordingId =
          some ⟨socketId, now, [c.1], false⟩ := by
        rw [hstep]
        exact mapGet_mapSet_self _ _ _
      have := sendChunks_existing socketId now recordingId rest
        (handleAudioChunk socketId now recordingId true c.1 c.2 st).1
        ⟨socketId, now, [c.1], false⟩ hrid hget
      simpa [sendChunks] using this

/-- C4: a sequence of `isFinal=false` chunks followed by one
`isFinal=true` chunk for a fresh session leaves the registry entry
buffering exactly the sent chunks in order (so the buffered count equals
the number sent), and the completion pipeline's drain captures them in
that same order. -/
theorem C4_chunks_buffered_in_order (socketId : String) (now : Int)
    (recordingId : String) (pre : List Nat) (lastChunk : Nat)
    (st : ServerState) (hrid : recordingId ≠ "")
    (h : mapGet st.activeRecordings recordingId = none) :
    mapGet (sendChunks socketId now recordingId
        (pre.map (fun c => (c, false)) ++ [(lastChunk, true)]) st).1.activeRecordings
      recordingId = some ⟨socketId, now, pre ++ [lastChunk], false⟩ ∧
    (pre ++ [lastChunk]).length =
      (pre.map (fun c => (c, false)) ++ [(lastChunk, true)]).length ∧
    (pipelinePrefix recordingId
        (sendChunks socketId now recordingId
          (pre.map (fun c => (c, false)) ++ [(lastChunk, true)]) st).1).2.2 =
      PipelineStage.running (pre ++ [lastChunk]) now := by
  have hmap : (pre.map (fun c => (c, false)) ++ [(lastChunk, true)]).map
      Prod.fst = pre ++ [lastChunk] := by
    rw [List.map_append, List.map_map]
    rw [show (Prod.fst ∘ fun c : Nat => (c, false)) = id from rfl]
    simp
  have hne : pre.map (fun c => (c, false)) ++ [(lastChunk, true)] ≠ [] := by
    simp
  have hget := sendChunks_fresh socketId now recordingId
    (pre.map (fun c => (c, false)) ++ [(lastChunk, true)]) st hrid h hne
  rw [hmap] at hget
  refine ⟨hget, by simp, ?_⟩
  unfold pipelinePrefix
  rw [hget]
  simp

/-- C4 witness: three chunks 1,2,3 with finals false,false,true. -/
theorem C4_chunks_buffered_in_order_witness :
    (("abc" : String) ≠ "" ∧
     mapGet (ServerState.mk [] []).activeRecordings "abc" = none) ∧
    (mapGet (sendChunks "s1" 0 "abc"
        ([1, 2].map (fun c => (c, false)) ++ [(3, true)])
        ⟨[], []⟩).1.activeRecordings "abc" =
      some ⟨"s1", 0, [1, 2] ++ [3], false⟩ ∧
     ([1, 2] ++ [3]).length =
       ([1, 2].map (fun c => (c, false)) ++ [(3, true)]).length ∧
     (pipelinePrefix "abc"
        (sendChunks "s1" 0 "abc"
          ([1, 2].map (fun c => (c, false)) ++ [(3, true)]) ⟨[], []⟩).1).2.2 =
       PipelineStage.running ([1, 2] ++ [3]) 0) :=
  ⟨⟨by decide, by decide⟩,
   C4_chunks_buffered_in_order "s1" 0 "abc" [1, 2] 3 ⟨[], []⟩ (by decide)
     (by decide)⟩

/-! ### Event classifiers and full-run equations -/

/-- Recognizes a `recording-status` event carrying status PROCESSING. -/
def isProcessingStatus (e : Emit) : Bool :=
  match e.event with
  | SEvent.recordingStatus _ s => s == "PROCESSING"
  | _ => false

/-- Recognizes a `recording-completed` event. -/
def isCompletedEvent (e : Emit) : Bool :=
  match e.event with
  | SEvent.recordingCompleted _ _ _ _ => true
  | _ => false

/-- Recognizes a `recording-error` event. -/
def isErrorEvent (e : Emit) : Bool :=
  match e.event with
  | SEvent.recordingError _ _ => true
  | _ => false

/-- Full result of a valid chunk for an untracked session. -/
theorem handleAudioChunk_fresh_eq (socketId : String) (now : Int)
    (recordingId : String) (c : Nat) (fin : Bool) (st : ServerState)
    (hrid : recordingId ≠ "")
    (h : mapGet st.activeRecordings recordingId = none) :
    handleAudioChunk socketId now recordingId true c fin st =
      (⟨mapSet st.activeRecordings recordingId ⟨socketId, now, [c], false⟩,
        st.db⟩,
       ⟨Target.toSocket socketId, SEvent.audioChunkReceived recordingId true⟩ ::
         (if fin then
            [⟨Target.toSocket socketId,
              SEvent.recordingStatus recordingId "PROCESSING"⟩]
          else [])) := by
  unfold handleAudioChunk
  simp [hrid, h, mapGet_mapSet_self, mapSet_mapSet_self]

/-- Full result of a valid chunk for a tracked session. -/
theorem handleAudioChunk_existing_eq (socketId : String) (now : Int)
    (recordingId : String) (c : Nat) (fin : Bool) (st : ServerState)
    (r : LiveRecording) (hrid : recordingId ≠ "")
    (h : mapGet st.activeRecordings recordingId = some r) :
    handleAudioChunk socketId now recordingId true c fin st =
      (⟨mapSet st.activeRecordings recordingId
          { r with chunks := r.chunks ++ [c] }, st.db⟩,
       ⟨Target.toSocket socketId, SEvent.audioChunkReceived recordingId true⟩ ::
         (if fin then
            [⟨Target.toSocket socketId,
              SEvent.recordingStatus recordingId "PROCESSING"⟩]
          else [])) := by
  unfold handleAudioChunk
  simp [hrid, h]

/-- Full result of the completion pipeline on its success path. -/
theorem processRecording_success_eq (env : PipelineEnv) (now : Int)
    (recordingId : String) (st : ServerState) (rec : LiveRecording)
    (r : DbRecord) (t s : String)
    (hreg : mapGet st.activeRecordings recordingId = some rec)
    (hc : rec.chunks ≠ [])
    (hdb : mapGet st.db recordingId = some r)
    (htr : env.transcribeAudio rec.chunks = Except.ok t)
    (hsum : env.generateSummary t = Except.ok s)
    (hok : env.persistOk = true) :
    processRecordingWithGemini env now recordingId st =
      (⟨mapDelete st.activeRecordings recordingId,
        mapSet st.db recordingId
          { r with
              transcript := some t
              summary := some s
              duration := some ((now - rec.startTime).fdiv 1000)
              status := Status.COMPLETED }⟩,
       [⟨Target.broadcast, SEvent.recordingStatus recordingId "PROCESSING"⟩,
        ⟨Target.broadcast, SEvent.transcriptionUpdate recordingId t true⟩,
        ⟨Target.broadcast,
         SEvent.recordingCompleted recordingId s t
           ((now - rec.startTime).fdiv 1000)⟩]) := by
  unfold processRecordingWithGemini pipelinePrefix pipelineRest
  simp [hreg, hc, hdb, htr, hsum, hok]

/-! ### C3: the three-chunk completion scenario -/

/-- The scenario of §8 of the spec: three chunks with
`isFinal = false, false, true`, then one `complete-recording`, then the
launched pipeline (run to completion with no interleaving). -/
def scenarioRun (env : PipelineEnv) (startNow procNow : Int)
    (socketId recordingId : String) (c1 c2 c3 : Nat) (st : ServerState) :
    ServerState × List Emit :=
  let r1 := handleAudioChunk socketId startNow recordingId true c1 false st
  let r2 := handleAudioChunk socketId startNow recordingId true c2 false r1.1
  let r3 := handleAudioChunk socketId startNow recordingId true c3 true r2.1
  let r4 := handleCompleteRecording socketId recordingId r3.1
  if r4.2.2 then
    let r5 := processRecordingWithGemini env procNow recordingId r4.1
    (r5.1, r1.2 ++ r2.2 ++ r3.2 ++ r4.2.1 ++ r5.2)
  else (r4.1, r1.2 ++ r2.2 ++ r3.2 ++ r4.2.1)

/-- Concrete adapter oracles for C3: both AI calls succeed, the durable
write succeeds. -/
def envC3 : PipelineEnv :=
  ⟨fun _ => Except.ok "the transcript", fun _ => Except.ok "the summary",
   true, "", true⟩

/-- Concrete state for C3: no live sessions, durable record for "abc". -/
def stC3 : ServerState := ⟨[], [("abc", ⟨Status.RECORDING, none, none, none⟩)]⟩

/-- C3 counterexample: in the scenario (3 chunks, isFinal=false,false,true,
then complete-recording, adapter calls succeeding), the coordinator emits
THREE recording-status PROCESSING events — one socket-scoped on the final
chunk, one socket-scoped from the complete handler, one broadcast from the
pipeline — not exactly one, refuting the claim. -/
theorem C3_counterexample :
    ((scenarioRun envC3 1000 5000 "s1" "abc" 1 2 3 stC3).2.filter
        isProcessingStatus).length = 3 ∧
    ¬ ((scenarioRun envC3 1000 5000 "s1" "abc" 1 2 3 stC3).2.filter
        isProcessingStatus).length = 1 := by
  decide

/-- C3 amended: in the scenario, the coordinator emits exactly THREE
recording-status PROCESSING events (final chunk, complete handler,
pipeline broadcast), then exactly one recording-completed event whose
transcript and summary are the adapter outputs (non-empty since the
adapter outputs are) and whose duration is ≥ 0, and afterwards the
registry no longer contains the session. -/
theorem C3_scenario_three_processing (env : PipelineEnv)
    (startNow procNow : Int) (socketId recordingId : String) (c1 c2 c3 : Nat)
    (st : ServerState) (r : DbRecord) (t s : String)
    (hrid : recordingId ≠ "")
    (hreg : mapGet st.activeRecordings recordingId = none)
    (hdb : mapGet st.db recordingId = some r)
    (htr : env.transcribeAudio [c1, c2, c3] = Except.ok t) (ht : t ≠ "")
    (hsum : env.generateSummary t = Except.ok s) (hs : s ≠ "")
    (hok : env.persistOk = true) (htime : startNow ≤ procNow) :
    ((scenarioRun env startNow procNow socketId recordingId c1 c2 c3 st).2.filter
        isProcessingStatus).length = 3 ∧
    (scenarioRun env startNow procNow socketId recordingId c1 c2 c3 st).2.filter
        isCompletedEvent =
      [⟨Target.broadcast,
        SEvent.recordingCompleted recordingId s t
          ((procNow - startNow).fdiv 1000)⟩] ∧
    t ≠ "" ∧ s ≠ "" ∧ 0 ≤ (procNow - startNow).fdiv 1000 ∧
    mapGet (scenarioRun env startNow procNow socketId recordingId c1 c2 c3
        st).1.activeRecordings recordingId = none := by
  have e1 := handleAudioChunk_fresh_eq socketId startNow recordingId c1 false
    st hrid hreg
  have hget1 : mapGet (handleAudioChunk socketId startNow recordingId true c1
      false st).1.activeRecordings recordingId =
      some ⟨socketId, startNow, [c1], false⟩ := by
    rw [e1]; exact mapGet_mapSet_self _ _ _
  have e2 := handleAudioChunk_existing_eq socketId startNow recordingId c2
    false _ _ hrid hget1
  have hget2 : mapGet (handleAudioChunk socketId startNow recordingId true c2
      false (handleAudioChunk socketId startNow recordingId true c1 false
        st).1).1.activeRecordings recordingId =
      some ⟨socketId, startNow, [c1, c2], false⟩ := by
    rw [e2]; exact mapGet_mapSet_self _ _ _
  have e3 := handleAudioChunk_existing_eq socketId startNow recordingId c3
    true _ _ hrid hget2
  have hget3 : mapGet (handleAudioChunk socketId startNow recordingId true c3
      true (handleAudioChunk socketId startNow recordingId true c2 false
        (handleAudioChunk socketId startNow recordingId true c1 false
          st).1).1).1.activeRecordings recordingId =
      some ⟨socketId, startNow, [c1, c2, c3], false⟩ := by
    rw [e3]; exact mapGet_mapSet_self _ _ _
  have e4 := handleCompleteRecording_launches socketId recordingId _
    ⟨socketId, startNow, [c1, c2, c3], false⟩ hget3 (by simp)
  have hdb3 : mapGet (handleAudioChunk socketId startNow recordingId true c3
      true (handleAudioChunk socketId startNow recordingId true c2 false
        (handleAudioChunk socketId startNow recordingId true c1 false
          st).1).1).1.db recordingId = some r := by
    rw [e3, e2, e1]; exact hdb
  have e5 := processRecording_success_eq env procNow recordingId _
    ⟨socketId, startNow, [c1, c2, c3], false⟩ r t s hget3 (by simp) hdb3 htr
    hsum hok
  have hrun : scenarioRun env startNow procNow socketId recordingId c1 c2 c3
      st =
      ((processRecordingWithGemini env procNow recordingId
          (handleAudioChunk socketId startNow recordingId true c3 true
            (handleAudioChunk socketId startNow recordingId true c2 false
              (handleAudioChunk socketId startNow recordingId true c1 false
                st).1).1).1).1,
       (handleAudioChunk socketId startNow recordingId true c1 false st).2 ++
       (handleAudioChunk socketId startNow recordingId true c2 false
         (handleAudioChunk socketId startNow recordingId true c1 false
           st).1).2 ++
       (handleAudioChunk socketId startNow recordingId true c3 true
         (handleAudioChunk socketId startNow recordingId true c2 false
           (handleAudioChunk socketId startNow recordingId true c1 false
             st).1).1).2 ++
       [⟨Target.toSocket socketId,
         SEvent.recordingStatus recordingId "PROCESSING"⟩] ++
       (processRecordingWithGemini env procNow recordingId
         (handleAudioChunk socketId startNow recordingId true c3 true
           (handleAudioChunk socketId startNow recordingId true c2 false
             (handleAudioChunk socketId startNow recordingId true c1 false
               st).1).1).1).2) := by
    simp only [scenarioRun]
    rw [e4]
    simp
  rw [hrun]
  rw [e5]
  constructor
  · rw [e3, e2, e1]
    simp [isProcessingStatus]
  constructor
  · rw [e3, e2, e1]
    simp [isCompletedEvent]
  refine ⟨ht, hs, Int.fdiv_nonneg (by omega) (by omega), ?_⟩
  exact mapGet_mapDelete_self _ _

/-- C3 witness: the amended theorem applied at the concrete scenario. -/
theorem C3_scenario_three_processing_witness :
    (("abc" : String) ≠ "" ∧
     mapGet stC3.activeRecordings "abc" = none ∧
     mapGet stC3.db "abc" = some ⟨Status.RECORDING, none, none, none⟩ ∧
     envC3.transcribeAudio [1, 2, 3] = Except.ok "the transcript" ∧
     envC3.generateSummary "the transcript" = Except.ok "the summary" ∧
     envC3.persistOk = true ∧ (1000 : Int) ≤ 5000) ∧
    (((scenarioRun envC3 1000 5000 "s1" "abc" 1 2 3 stC3).2.filter
        isProcessingStatus).length = 3 ∧
     (scenarioRun envC3 1000 5000 "s1" "abc" 1 2 3 stC3).2.filter
        isCompletedEvent =
       [⟨Target.broadcast,
         SEvent.recordingCompleted "abc" "the summary" "the transcript"
           (((5000 : Int) - 1000).fdiv 1000)⟩] ∧
     ("the transcript" : String) ≠ "" ∧ ("the summary" : String) ≠ "" ∧
     0 ≤ ((5000 : Int) - 1000).fdiv 1000 ∧
     mapGet (scenarioRun envC3 1000 5000 "s1" "abc" 1 2 3
        stC3).1.activeRecordings "abc" = none) :=
  ⟨⟨by decide, by decide, by decide, rfl, rfl, rfl, by decide⟩,
   C3_scenario_three_processing envC3 1000 5000 "s1" "abc" 1 2 3 stC3
     ⟨Status.RECORDING, none, none, none⟩ "the transcript" "the summary"
     (by decide) (by decide) (by decide) rfl (by decide) rfl (by decide) rfl
     (by decide)⟩

/-! ### Failure paths of the completion pipeline -/

/-- The catch block always emits exactly one broadcast `recording-error`
carrying the exception message, and always removes the registry entry. -/
theorem pipelineCatch_emits (persistErrOk : Bool) (recordingId errMsg : String)
    (st : ServerState) :
    (pipelineCatch persistErrOk recordingId errMsg st).2 =
      [⟨Target.broadcast, SEvent.recordingError recordingId errMsg⟩] ∧
    mapGet (pipelineCatch persistErrOk recordingId errMsg
        st).1.activeRecordings recordingId = none := by
  unfold pipelineCatch
  exact ⟨rfl, mapGet_mapDelete_self _ _⟩

/-- When the durable row exists and the best-effort write succeeds, the
catch block persists status COMPLETED with the fixed transcript marker
and the summary marker embedding the raw exception message. -/
theorem pipelineCatch_db (recordingId errMsg : String) (st : ServerState)
    (r : DbRecord) (hdb : mapGet st.db recordingId = some r) :
    mapGet (pipelineCatch true recordingId errMsg st).1.db recordingId =
      some { r with
               status := Status.COMPLETED
               transcript := some errorMarkerTranscript
               summary := some (errorMarkerSummary errMsg) } := by
  unfold pipelineCatch
  simp [hdb, mapGet_mapSet_self]

/-- Full result of the pipeline when the durable write of the computed
result rejects (both AI calls succeeded). -/
theorem processRecording_persistFail_eq (env : PipelineEnv) (now : Int)
    (recordingId : String) (st : ServerState) (rec : LiveRecording)
    (r : DbRecord) (t s : String)
    (hreg : mapGet st.activeRecordings recordingId = some rec)
    (hc : rec.chunks ≠ [])
    (hdb : mapGet st.db recordingId = some r)
    (htr : env.transcribeAudio rec.chunks = Except.ok t)
    (hsum : env.generateSummary t = Except.ok s)
    (hok : env.persistOk = false) :
    processRecordingWithGemini env now recordingId st =
      ((pipelineCatch env.persistErrOk recordingId env.persistFailMsg st).1,
       [⟨Target.broadcast, SEvent.recordingStatus recordingId "PROCESSING"⟩,
        ⟨Target.broadcast, SEvent.transcriptionUpdate recordingId t true⟩,
        ⟨Target.broadcast,
         SEvent.recordingError recordingId env.persistFailMsg⟩]) := by
  unfold processRecordingWithGemini pipelinePrefix pipelineRest
  have hcatch := pipelineCatch_emits env.persistErrOk recordingId
    env.persistFailMsg st
  simp [hreg, hc, hdb, htr, hsum, hok, hcatch.1]

/-- Full result of the pipeline when transcription rejects with
message `m`. -/
theorem processRecording_transcribeFail_eq (env : PipelineEnv) (now : Int)
    (recordingId : String) (st : ServerState) (rec : LiveRecording)
    (r : DbRecord) (m : String)
    (hreg : mapGet st.activeRecordings recordingId = some rec)
    (hc : rec.chunks ≠ [])
    (hdb : mapGet st.db recordingId = some r)
    (htr : env.transcribeAudio rec.chunks = Except.error m) :
    processRecordingWithGemini env now recordingId st =
      ((pipelineCatch env.persistErrOk recordingId m st).1,
       [⟨Target.broadcast, SEvent.recordingStatus recordingId "PROCESSING"⟩,
        ⟨Target.broadcast, SEvent.recordingError recordingId m⟩]) := by
  unfold processRecordingWithGemini pipelinePrefix pipelineRest
  have hcatch := pipelineCatch_emits env.persistErrOk recordingId m st
  simp [hreg, hc, hdb, htr, hcatch.1]

/-- Full result of the pipeline when summarization rejects with
message `m` after a successful transcription `t`. -/
theorem processRecording_summarizeFail_eq (env : PipelineEnv) (now : Int)
    (recordingId : String) (st : ServerState) (rec : LiveRecording)
    (r : DbRecord) (t m : String)
    (hreg : mapGet st.activeRecordings recordingId = some rec)
    (hc : rec.chunks ≠ [])
    (hdb : mapGet st.db recordingId = some r)
    (htr : env.transcribeAudio rec.chunks = Except.ok t)
    (hsum : env.generateSummary t = Except.error m) :
    processRecordingWithGemini env now recordingId st =
      ((pipelineCatch env.persistErrOk recordingId m st).1,
       [⟨Target.broadcast, SEvent.recordingStatus recordingId "PROCESSING"⟩,
        ⟨Target.broadcast, SEvent.transcriptionUpdate recordingId t true⟩,
        ⟨Target.broadcast, SEvent.recordingError recordingId m⟩]) := by
  unfold processRecordingWithGemini pipelinePrefix pipelineRest
  have hcatch := pipelineCatch_emits env.persistErrOk recordingId m st
  simp [hreg, hc, hdb, htr, hsum, hcatch.1]

/-! ### C5: persistence failure after both AI calls succeeded -/

/-- Concrete oracles for C5: both AI calls succeed, the durable write of
the computed result rejects with message "db down". -/
def envC5 : PipelineEnv :=
  ⟨fun _ => Except.ok "the transcript", fun _ => Except.ok "the summary",
   false, "db down", false⟩

/-- Concrete state for C5: session "abc" buffered, durable row present. -/
def stC5 : ServerState :=
  ⟨[("abc", ⟨"s1", 0, [7], false⟩)],
   [("abc", ⟨Status.RECORDING, none, none, none⟩)]⟩

/-- C5 counterexample: both AI calls succeed but the durable write fails;
the pipeline emits NO recording-completed event — the client instead
receives a broadcast recording-error carrying the persistence error
message — refuting the claim that the in-memory result is still
delivered. -/
theorem C5_counterexample :
    (processRecordingWithGemini envC5 5000 "abc" stC5).2.filter
        isCompletedEvent = [] ∧
    (processRecordingWithGemini envC5 5000 "abc" stC5).2.filter
        isErrorEvent =
      [⟨Target.broadcast, SEvent.recordingError "abc" "db down"⟩] := by
  decide

/-- C5 amended: if the durable write of transcript/summary/duration/status
rejects after both AI calls succeeded, the coordinator does NOT emit
recording-completed; it runs the catch path instead, emitting exactly one
broadcast recording-error carrying the persistence exception's message,
and removes the registry entry — the computed in-memory result is not
delivered. -/
theorem C5_persist_failure_suppresses_result (env : PipelineEnv) (now : Int)
    (recordingId : String) (st : ServerState) (rec : LiveRecording)
    (r : DbRecord) (t s : String)
    (hreg : mapGet st.activeRecordings recordingId = some rec)
    (hc : rec.chunks ≠ [])
    (hdb : mapGet st.db recordingId = some r)
    (htr : env.transcribeAudio rec.chunks = Except.ok t)
    (hsum : env.generateSummary t = Except.ok s)
    (hok : env.persistOk = false) :
    (processRecordingWithGemini env now recordingId st).2.filter
        isCompletedEvent = [] ∧
    (processRecordingWithGemini env now recordingId st).2.filter
        isErrorEvent =
      [⟨Target.broadcast,
        SEvent.recordingError recordingId env.persistFailMsg⟩] ∧
    mapGet (processRecordingWithGemini env now recordingId
        st).1.activeRecordings recordingId = none := by
  have heq := processRecording_persistFail_eq env now recordingId st rec r t s
    hreg hc hdb htr hsum hok
  rw [heq]
  refine ⟨by simp [isCompletedEvent], by simp [isErrorEvent], ?_⟩
  exact (pipelineCatch_emits env.persistErrOk recordingId env.persistFailMsg
    st).2

/-- C5 witness: the amended theorem at the concrete failing write. -/
theorem C5_persist_failure_suppresses_result_witness :
    (mapGet stC5.activeRecordings "abc" = some ⟨"s1", 0, [7], false⟩ ∧
     (([7] : List Nat) ≠ []) ∧
     mapGet stC5.db "abc" = some ⟨Status.RECORDING, none, none, none⟩ ∧
     envC5.transcribeAudio [7] = Except.ok "the transcript" ∧
     envC5.generateSummary "the transcript" = Except.ok "the summary" ∧
     envC5.persistOk = false) ∧
    ((processRecordingWithGemini envC5 5000 "abc" stC5).2.filter
        isCompletedEvent = [] ∧
     (processRecordingWithGemini envC5 5000 "abc" stC5).2.filter
        isErrorEvent =
       [⟨Target.broadcast, SEvent.recordingError "abc" envC5.persistFailMsg⟩] ∧
     mapGet (processRecordingWithGemini envC5 5000 "abc"
        stC5).1.activeRecordings "abc" = none) :=
  ⟨⟨by decide, by decide, by decide, rfl, rfl, rfl⟩,
   C5_persist_failure_suppresses_result envC5 5000 "abc" stC5
     ⟨"s1", 0, [7], false⟩ ⟨Status.RECORDING, none, none, none⟩
     "the transcript" "the summary" (by decide) (by decide) (by decide) rfl
     rfl rfl⟩

/-! ### C6: error sanitization -/

/-- Concrete oracles for C6: transcription rejects with a raw internal
exception message. -/
def envC6 : PipelineEnv :=
  ⟨fun _ => Except.error "raw internal exception: ECONNRESET",
   fun _ => Except.ok "the summary", true, "", true⟩

/-- Concrete state for C6: session "abc" buffered, durable row present. -/
def stC6 : ServerState :=
  ⟨[("abc", ⟨"s1", 0, [7], false⟩)],
   [("abc", ⟨Status.RECORDING, none, none, none⟩)]⟩

/-- C6 counterexample: transcription fails with a raw internal exception
message; the recording-error event forwards exactly that message
verbatim, and the persisted summary field embeds it verbatim after the
"Processing failed: " prefix — refuting the claim that raw exception text
is never forwarded or persisted. -/
theorem C6_counterexample :
    (processRecordingWithGemini envC6 0 "abc" stC6).2.filter isErrorEvent =
      [⟨Target.broadcast,
        SEvent.recordingError "abc" "raw internal exception: ECONNRESET"⟩] ∧
    (mapGet (processRecordingWithGemini envC6 0 "abc" stC6).1.db "abc").map
        DbRecord.summary =
      some (some "Processing failed: raw internal exception: ECONNRESET") := by
  decide

/-- C6 amended: when transcription fails with message `m`, or
transcription succeeds and summarization fails with message `m`, the
coordinator emits exactly one recording-error whose error string is the
raw exception message `m` verbatim, and (when the durable row exists and
the best-effort write succeeds) persists the fixed transcript marker
together with a summary embedding `m` verbatim; only the transcript
marker is a sanitized fixed string. -/
theorem C6_raw_error_forwarded (env : PipelineEnv) (now : Int)
    (recordingId : String) (st : ServerState) (rec : LiveRecording)
    (r : DbRecord) (m : String)
    (hreg : mapGet st.activeRecordings recordingId = some rec)
    (hc : rec.chunks ≠ [])
    (hdb : mapGet st.db recordingId = some r)
    (hfail : env.transcribeAudio rec.chunks = Except.error m ∨
      ∃ t, env.transcribeAudio rec.chunks = Except.ok t ∧
        env.generateSummary t = Except.error m)
    (herrok : env.persistErrOk = true) :
    (processRecordingWithGemini env now recordingId st).2.filter
        isErrorEvent = [⟨Target.broadcast,
          SEvent.recordingError recordingId m⟩] ∧
    mapGet (processRecordingWithGemini env now recordingId st).1.db
        recordingId =
      some { r with
               status := Status.COMPLETED
               transcript := some errorMarkerTranscript
               summary := some (errorMarkerSummary m) } ∧
    errorMarkerSummary m = "Processing failed: " ++ m := by
  rcases hfail with htr | ⟨t, htr, hsum⟩
  · have heq := processRecording_transcribeFail_eq env now recordingId st rec
      r m hreg hc hdb htr
    rw [heq]
    refine ⟨by simp [isErrorEvent], ?_, rfl⟩
    rw [herrok] at heq ⊢
    exact pipelineCatch_db recordingId m st r hdb
  · have heq := processRecording_summarizeFail_eq env now recordingId st rec
      r t m hreg hc hdb htr hsum
    rw [heq]
    refine ⟨by simp [isErrorEvent], ?_, rfl⟩
    rw [herrok]
    exact pipelineCatch_db recordingId m st r hdb

/-- C6 witness: the amended theorem at the concrete raw message. -/
theorem C6_raw_error_forwarded_witness :
    (mapGet stC6.activeRecordings "abc" = some ⟨"s1", 0, [7], false⟩ ∧
     (([7] : List Nat) ≠ []) ∧
     mapGet stC6.db "abc" = some ⟨Status.RECORDING, none, none, none⟩ ∧
     envC6.transcribeAudio [7] =
       Except.error "raw internal exception: ECONNRESET" ∧
     envC6.persistErrOk = true) ∧
    ((processRecordingWithGemini envC6 0 "abc" stC6).2.filter isErrorEvent =
       [⟨Target.broadcast,
         SEvent.recordingError "abc" "raw internal exception: ECONNRESET"⟩] ∧
     mapGet (processRecordingWithGemini envC6 0 "abc" stC6).1.db "abc" =
       some ⟨Status.COMPLETED, some errorMarkerTranscript,
             some (errorMarkerSummary "raw internal exception: ECONNRESET"),
             none⟩ ∧
     errorMarkerSummary "raw internal exception: ECONNRESET" =
       "Processing failed: " ++ "raw internal exception: ECONNRESET") :=
  ⟨⟨by decide, by decide, by decide, rfl, rfl⟩,
   C6_raw_error_forwarded envC6 0 "abc" stC6 ⟨"s1", 0, [7], false⟩
     ⟨Status.RECORDING, none, none, none⟩ "raw internal exception: ECONNRESET"
     (by decide) (by decide) (by decide) (Or.inl rfl) rfl⟩

/-! ### C8: chunks arriving during/after completion -/

/-- Concrete state for C8: session "abc" mid-pipeline (durable status
PROCESSING, entry still buffered in the registry). -/
def stC8 : ServerState :=
  ⟨[("abc", ⟨"s1", 0, [1], false⟩)],
   [("abc", ⟨Status.PROCESSING, none, none, none⟩)]⟩

/-- C8 counterexample: session "abc" is in PROCESSING (durable status
PROCESSING, pipeline in flight, entry still registered); an arriving
audio-chunk is NOT ignored — it is appended, growing the buffer from
[1] to [1, 2] — refuting the claim that buffer and chunk count are
unchanged. -/
theorem C8_counterexample :
    (mapGet stC8.db "abc").map DbRecord.status = some Status.PROCESSING ∧
    (mapGet stC8.activeRecordings "abc").map LiveRecording.chunks =
      some [1] ∧
    (mapGet (handleAudioChunk "s1" 100 "abc" true 2 false
        stC8).1.activeRecordings "abc").map LiveRecording.chunks =
      some [1, 2] ∧
    ([1, 2] : List Nat) ≠ [1] := by
  decide

/-- C8 amended: the `audio-chunk` handler performs no status check, so a
valid chunk is never ignored: if the session is still in the registry
(e.g. PROCESSING, pipeline in flight) the chunk is appended to its
buffer, and if the session is absent (e.g. already COMPLETED and removed)
a fresh entry is created buffering that chunk; in both cases the buffered
chunk count grows by one relative to the registry's previous content. -/
theorem C8_chunk_never_ignored (socketId : String) (now : Int)
    (recordingId : String) (c : Nat) (fin : Bool) (st : ServerState)
    (hrid : recordingId ≠ "") :
    mapGet (handleAudioChunk socketId now recordingId true c fin
        st).1.activeRecordings recordingId =
      some (match mapGet st.activeRecordings recordingId with
            | some rec => { rec with chunks := rec.chunks ++ [c] }
            | none => ⟨socketId, now, [c], false⟩) ∧
    (mapGet (handleAudioChunk socketId now recordingId true c fin
        st).1.activeRecordings recordingId).map
        (fun r => r.chunks.length) =
      some ((mapGet st.activeRecordings recordingId).elim 0
        (fun r => r.chunks.length) + 1) := by
  cases h : mapGet st.activeRecordings recordingId with
  | none =>
      have heq := handleAudioChunk_fresh_eq socketId now recordingId c fin st
        hrid h
      rw [heq]
      simp [mapGet_mapSet_self]
  | some rec =>
      have heq := handleAudioChunk_existing_eq socketId now recordingId c fin
        st rec hrid h
      rw [heq]
      simp [mapGet_mapSet_self]

/-- C8 witness: the amended theorem at the PROCESSING-session state. -/
theorem C8_chunk_never_ignored_witness :
    (("abc" : String) ≠ "") ∧
    (mapGet (handleAudioChunk "s1" 100 "abc" true 2 false
        stC8).1.activeRecordings "abc" =
      some (match mapGet stC8.activeRecordings "abc" with
            | some rec => { rec with chunks := rec.chunks ++ [2] }
            | none => ⟨"s1", 100, [2], false⟩) ∧
     (mapGet (handleAudioChunk "s1" 100 "abc" true 2 false
        stC8).1.activeRecordings "abc").map (fun r => r.chunks.length) =
      some ((mapGet stC8.activeRecordings "abc").elim 0
        (fun r => r.chunks.length) + 1)) :=
  ⟨by decide, C8_chunk_never_ignored "s1" 100 "abc" 2 false stC8 (by decide)⟩

/-! ### C9: the staleness sweep -/

/-- A key that does not occur in the list maps to `none`. -/
theorem mapGet_eq_none_of_not_mem {α : Type} (m : List (String × α))
    (k : String) (h : k ∉ m.map Prod.fst) : mapGet m k = none := by
  induction m with
  | nil => rfl
  | cons p rest ih =>
      obtain ⟨k1, v1⟩ := p
      simp only [List.map_cons, List.mem_cons] at h
      push_neg at h
      have h1 : ¬ k1 = k := fun hh => h.1 hh.symm
      simp [mapGet, h1, ih h.2]

/-- Characterization of the cleanup sweep on registries with unique keys
(the JS `Map` invariant): an entry survives exactly when its `startTime`
is within the one-hour window; entries that survive are unchanged. -/
theorem mapGet_cleanupStaleRecordings (sweepNow : Int)
    (reg : List (String × LiveRecording)) (recordingId : String)
    (hnd : (reg.map Prod.fst).Nodup) :
    mapGet (cleanupStaleRecordings sweepNow reg) recordingId =
      match mapGet reg recordingId with
      | some r =>
          if r.startTime < sweepNow - oneHourMs then none else some r
      | none => none := by
  induction reg with
  | nil => rfl
  | cons p rest ih =>
      obtain ⟨k1, v1⟩ := p
      simp only [List.map_cons, List.nodup_cons] at hnd
      have hcons : cleanupStaleRecordings sweepNow ((k1, v1) :: rest) =
          if sweepNow - oneHourMs ≤ v1.startTime then
            (k1, v1) :: cleanupStaleRecordings sweepNow rest
          else cleanupStaleRecordings sweepNow rest := by
        simp only [cleanupStaleRecordings, List.filter_cons,
          decide_eq_true_eq]
      rw [hcons]
      by_cases hk : k1 = recordingId
      · subst hk
        by_cases hkeep : sweepNow - oneHourMs ≤ v1.startTime
        · rw [if_pos hkeep]
          simp [mapGet, not_lt.mpr hkeep]
        · rw [if_neg hkeep]
          have hnone : mapGet (cleanupStaleRecordings sweepNow rest)
              k1 = none := by
            apply mapGet_eq_none_of_not_mem
            intro hmem
            rcases List.mem_map.mp hmem with ⟨x, hx, hfst⟩
            simp only [cleanupStaleRecordings] at hx
            exact hnd.1 (List.mem_map.mpr
              ⟨x, List.mem_of_mem_filter hx, hfst⟩)
          rw [hnone]
          simp [mapGet, not_le.mp hkeep]
      · have ihr := ih hnd.2
        by_cases hkeep : sweepNow - oneHourMs ≤ v1.startTime
        · rw [if_pos hkeep]
          simp [mapGet, hk, ihr]
        · rw [if_neg hkeep]
          simp [mapGet, hk, ihr]

/-- Replacing the value at an existing key does not change the key list. -/
theorem mapSet_keys_of_mem {α : Type} (m : List (String × α)) (k : String)
    (v w : α) (h : mapGet m k = some v) :
    (mapSet m k w).map Prod.fst = m.map Prod.fst := by
  induction m with
  | nil => simp [mapGet] at h
  | cons p rest ih =>
      obtain ⟨k1, v1⟩ := p
      by_cases hk : k1 = k
      · subst hk; simp [mapSet]
      · simp only [mapGet, hk, if_false] at h
        simp [mapSet, hk, ih h]

/-- Concrete state for C9: session "abc" created at time 0. -/
def stC9 : ServerState :=
  ⟨[("abc", ⟨"s1", 0, [1], false⟩)], []⟩

/-- C9 counterexample: session "abc" (created at time 0) receives a chunk
at t = 3,599,000 ms and the sweep runs at t = 3,700,000 ms — the session
was active 101 seconds earlier, far below the one-hour idle threshold,
yet the sweep removes it, because staleness is measured from the
never-refreshed creation time, refuting the claim that an actively
receiving session is never removed. -/
theorem C9_counterexample :
    ((3700000 : Int) - 3599000 < oneHourMs) ∧
    (mapGet (handleAudioChunk "s1" 3599000 "abc" true 2 false
        stC9).1.activeRecordings "abc").map LiveRecording.chunks =
      some [1, 2] ∧
    mapGet (cleanupStaleRecordings 3700000
        (handleAudioChunk "s1" 3599000 "abc" true 2 false
          stC9).1.activeRecordings) "abc" = none := by
  decide

/-- C9 amended: the sweep removes exactly those registry entries whose
creation time `startTime` lies strictly more than one hour before the
sweep, and keeps the others unchanged; `startTime` is set when the entry
is created and never refreshed by chunk arrival, so a session that is
still actively receiving chunks IS removed once its creation time is over
an hour old, while entries created within the hour are left unchanged. -/
theorem C9_sweep_uses_creation_time (socketId : String)
    (chunkNow sweepNow : Int) (recordingId : String) (c : Nat) (fin : Bool)
    (st : ServerState) (rec : LiveRecording) (hrid : recordingId ≠ "")
    (hreg : mapGet st.activeRecordings recordingId = some rec)
    (hnd : (st.activeRecordings.map Prod.fst).Nodup) :
    mapGet (handleAudioChunk socketId chunkNow recordingId true c fin
        st).1.activeRecordings recordingId =
      some { rec with chunks := rec.chunks ++ [c] } ∧
    mapGet (cleanupStaleRecordings sweepNow
        (handleAudioChunk socketId chunkNow recordingId true c fin
          st).1.activeRecordings) recordingId =
      (if rec.startTime < sweepNow - oneHourMs then none
       else some { rec with chunks := rec.chunks ++ [c] }) := by
  have heq := handleAudioChunk_existing_eq socketId chunkNow recordingId c fin
    st rec hrid hreg
  have hget : mapGet (handleAudioChunk socketId chunkNow recordingId true c
      fin st).1.activeRecordings recordingId =
      some { rec with chunks := rec.chunks ++ [c] } := by
    rw [heq]; exact mapGet_mapSet_self _ _ _
  refine ⟨hget, ?_⟩
  have hkeys : ((handleAudioChunk socketId chunkNow recordingId true c fin
      st).1.activeRecordings.map Prod.fst) =
      st.activeRecordings.map Prod.fst := by
    rw [heq]
    exact mapSet_keys_of_mem st.activeRecordings recordingId rec _ hreg
  have hchar := mapGet_cleanupStaleRecordings sweepNow
    (handleAudioChunk socketId chunkNow recordingId true c fin
      st).1.activeRecordings recordingId (by rw [hkeys]; exact hnd)
  rw [hchar, hget]

/-- C9 witness: the amended theorem at a stale-but-active session. -/
theorem C9_sweep_uses_creation_time_witness :
    (("abc" : String) ≠ "" ∧
     mapGet stC9.activeRecordings "abc" = some ⟨"s1", 0, [1], false⟩ ∧
     (stC9.activeRecordings.map Prod.fst).Nodup) ∧
    (mapGet (handleAudioChunk "s1" 3599000 "abc" true 2 false
        stC9).1.activeRecordings "abc" =
      some ⟨"s1", 0, [1, 2], false⟩ ∧
     mapGet (cleanupStaleRecordings 3700000
        (handleAudioChunk "s1" 3599000 "abc" true 2 false
          stC9).1.activeRecordings) "abc" =
      (if (0 : Int) < 3700000 - oneHourMs then none
       else some ⟨"s1", 0, [1, 2], false⟩)) :=
  ⟨⟨by decide, by decide, by decide⟩,
   C9_sweep_uses_creation_time "s1" 3599000 3700000 "abc" 2 false stC9
     ⟨"s1", 0, [1], false⟩ (by decide) (by decide) (by decide)⟩

/-! ### C10: broadcast vs socket scoping -/

/-- Recognizes a broadcast emit (`io.emit`). -/
def isBroadcastEmit (e : Emit) : Bool :=
  match e.target with
  | Target.broadcast => true
  | Target.toSocket _ => false

/-- Recognizes an emit scoped to the given socket (`socket.emit`). -/
def isToSocketEmit (socketId : String) (e : Emit) : Bool :=
  match e.target with
  | Target.broadcast => false
  | Target.toSocket s => s == socketId

/-- Every emit of the pipeline remainder is a broadcast. -/
theorem pipelineRest_all_broadcast (env : PipelineEnv) (now : Int)
    (recordingId : String) (stage : PipelineStage) (st : ServerState) :
    ((pipelineRest env now recordingId stage st).2.all isBroadcastEmit) =
      true := by
  unfold pipelineRest pipelineCatch
  cases stage with
  | failing msg => simp [isBroadcastEmit]
  | running chunks startTime =>
      cases hdb : mapGet st.db recordingId with
      | none => simp [hdb, isBroadcastEmit]
      | some recording =>
          cases htr : env.transcribeAudio chunks with
          | error m => simp [hdb, htr, isBroadcastEmit]
          | ok t =>
              cases hs : env.generateSummary t with
              | error m => simp [hdb, htr, hs, isBroadcastEmit]
              | ok s =>
                  by_cases hok : env.persistOk <;>
                    simp [hdb, htr, hs, hok, isBroadcastEmit]

/-- C10: the events produced by the completion pipeline are all broadcast
to every connected client (`io.emit`), while every event emitted directly
by the four socket event handlers — per-chunk acknowledgements and the
handler-level status/error events — is scoped to the owning socket
(`socket.emit`). -/
theorem C10_pipeline_broadcasts_handlers_scoped (env : PipelineEnv)
    (now : Int) (recordingId socketId : String) (chunkPresent : Bool)
    (c : Nat) (fin : Bool) (st : ServerState) :
    ((processRecordingWithGemini env now recordingId st).2.all
        isBroadcastEmit) = true ∧
    ((handleAudioChunk socketId now recordingId chunkPresent c fin st).2.all
        (isToSocketEmit socketId)) = true ∧
    ((handleCompleteRecording socketId recordingId st).2.1.all
        (isToSocketEmit socketId)) = true ∧
    ((handlePauseRecording socketId recordingId st).2.all
        (isToSocketEmit socketId)) = true ∧
    ((handleResumeRecording socketId recordingId st).2.all
        (isToSocketEmit socketId)) = true := by
  refine ⟨?_, ?_, ?_, ?_, ?_⟩
  · unfold processRecordingWithGemini
    rw [List.all_append]
    have hpre : ((pipelinePrefix recordingId st).2.1.all isBroadcastEmit) =
        true := by
      unfold pipelinePrefix
      cases h : mapGet st.activeRecordings recordingId with
      | none => simp
      | some r =>
          by_cases hc : r.chunks.isEmpty <;> simp [hc, isBroadcastEmit]
    rw [hpre, pipelineRest_all_broadcast]
    rfl
  · unfold handleAudioChunk
    by_cases hv : recordingId = "" ∨ chunkPresent = false
    · simp [hv, isToSocketEmit]
    · cases fin <;> simp [hv, isToSocketEmit]
  · unfold handleCompleteRecording
    cases h : mapGet st.activeRecordings recordingId with
    | none => simp [isToSocketEmit]
    | some r => by_cases hc : r.chunks.isEmpty <;> simp [hc, isToSocketEmit]
  · unfold handlePauseRecording
    cases h : mapGet st.db recordingId with
    | none => simp
    | some r => simp [isToSocketEmit]
  · unfold handleResumeRecording
    cases h : mapGet st.db recordingId with
    | none => simp
    | some r => simp [isToSocketEmit]

end ScribeAI
